import Mathlib

/-!
Verification of the signal-fusion and risk-gating pipeline of the
repository (signal_generator_backup.py, risk_engine_backup.py,
ai_strategies_backup.py, coredata_engine.py, app_main.py).

All monetary and score arithmetic is modelled over `ℚ`.  Python `dict`
results of individual risk checks become the `RiskCheck` structure;
Python dataclasses become Lean structures of the same field names
(snake_case kept where Lean allows it).
-/

/-- The `TradeSignal` dataclass from signal_generator_backup.py (lines 9-24).
`timestamp` is omitted (wall-clock only), `quantity` is an integer in the
source but participates in rational arithmetic, so it is carried as `ℚ`. -/
structure TradeSignal where
  symbol : String
  action : String          -- BUY, SELL, HOLD
  confidence : ℚ
  target_price : ℚ
  stop_loss : ℚ
  quantity : ℚ := 0
  reasoning : String := ""
  source : String := ""
  deriving Repr, DecidableEq

/-- Embeds `SignalGenerator.create_hold_signal` (signal_generator_backup.py lines 362-371). -/
def create_hold_signal (symbol reason : String) : TradeSignal :=
  { symbol := symbol, action := "HOLD", confidence := 0,
    target_price := 0, stop_loss := 0, reasoning := reason }

/-- Total confidence accumulated over all signals
(`total_confidence` in `fuse_signals`, lines 279-281). -/
def totalConfidence (signals : List TradeSignal) : ℚ :=
  (signals.map (·.confidence)).sum

/-- Weighted BUY vote (`buy_score` in `fuse_signals`, lines 283-284). -/
def buyScore (signals : List TradeSignal) : ℚ :=
  ((signals.filter (fun s => s.action == "BUY")).map (·.confidence)).sum

/-- Weighted SELL vote (`sell_score` in `fuse_signals`, lines 285-286). -/
def sellScore (signals : List TradeSignal) : ℚ :=
  ((signals.filter (fun s => s.action == "SELL")).map (·.confidence)).sum

/-- Mean of a list, `0` for the empty list: the pattern
`sum(xs)/len(xs) if xs else 0` used for target prices and stop losses. -/
def listMean (xs : List ℚ) : ℚ :=
  if xs = [] then 0 else xs.sum / xs.length

/-- The action/confidence decision of `fuse_signals`
(signal_generator_backup.py lines 303-311): the 60% thresholds are tested
independently, BUY first. -/
def fuseAction (buy_ratio sell_ratio : ℚ) : String × ℚ :=
  if buy_ratio ≥ 3/5 then ("BUY", buy_ratio)
  else if sell_ratio ≥ 3/5 then ("SELL", sell_ratio)
  else ("HOLD", 1/2)

/-- Embeds `SignalGenerator.fuse_signals` (signal_generator_backup.py lines 266-324).
Weighted voting: each signal votes with weight equal to its confidence;
the decision is `fuseAction` over the two vote ratios.  Reasoning strings
are carried along as in the source. -/
def fuse_signals (signals : List TradeSignal) : TradeSignal :=
  match signals with
  | [] => create_hold_signal "" "no valid signals"
  | s0 :: _ =>
    if totalConfidence signals = 0 then
      create_hold_signal s0.symbol "all signal confidences are zero"
    else
      let ac := fuseAction (buyScore signals / totalConfidence signals)
        (sellScore signals / totalConfidence signals)
      let target_prices := (signals.filter (fun s => 0 < s.target_price)).map (·.target_price)
      let stop_losses := (signals.filter (fun s => 0 < s.stop_loss)).map (·.stop_loss)
      let reasoning_parts := (signals.filter (fun s => s.reasoning ≠ "")).map
        (fun s => s.source ++ ": " ++ s.reasoning)
      { symbol := s0.symbol, action := ac.1, confidence := ac.2,
        target_price := listMean target_prices,
        stop_loss := listMean stop_losses,
        reasoning := String.intercalate " | " reasoning_parts }

theorem fuseAction_buy {br sr : ℚ} (h : br ≥ 3/5) :
    fuseAction br sr = ("BUY", br) := by
  simp [fuseAction, h]

theorem fuseAction_sell {br sr : ℚ} (h1 : ¬ br ≥ 3/5) (h2 : sr ≥ 3/5) :
    fuseAction br sr = ("SELL", sr) := by
  simp [fuseAction, h1, h2]

theorem fuseAction_hold {br sr : ℚ} (h1 : ¬ br ≥ 3/5) (h2 : ¬ sr ≥ 3/5) :
    fuseAction br sr = ("HOLD", 1/2) := by
  simp [fuseAction, h1, h2]

/-- On a cons cell with nonzero total confidence, `fuse_signals` decides
action and confidence through `fuseAction` on the two vote ratios. -/
theorem fuse_signals_cons (s0 : TradeSignal) (rest : List TradeSignal)
    (htot : totalConfidence (s0 :: rest) ≠ 0) :
    (fuse_signals (s0 :: rest)).action =
      (fuseAction (buyScore (s0 :: rest) / totalConfidence (s0 :: rest))
        (sellScore (s0 :: rest) / totalConfidence (s0 :: rest))).1 ∧
    (fuse_signals (s0 :: rest)).confidence =
      (fuseAction (buyScore (s0 :: rest) / totalConfidence (s0 :: rest))
        (sellScore (s0 :: rest) / totalConfidence (s0 :: rest))).2 := by
  rw [fuse_signals, if_neg htot]
  exact ⟨rfl, rfl⟩

/-- C1 — For every non-empty signal list with positive total
confidence, `fuse_signals` computes `buy_ratio` and `sell_ratio` as the
BUY-weight and SELL-weight shares of the total confidence and decides by
independently tested 60% thresholds with BUY checked first:
`buy_ratio ≥ 0.6` gives BUY with confidence `buy_ratio` (never SELL
there); otherwise `sell_ratio ≥ 0.6` gives SELL with confidence
`sell_ratio`; otherwise HOLD with confidence `0.5`. -/
theorem fuse_signals_decision (signals : List TradeSignal)
    (hne : signals ≠ []) (hpos : 0 < totalConfidence signals) :
    (buyScore signals / totalConfidence signals ≥ 3/5 →
      (fuse_signals signals).action = "BUY" ∧
      (fuse_signals signals).confidence = buyScore signals / totalConfidence signals) ∧
    (¬ buyScore signals / totalConfidence signals ≥ 3/5 →
      sellScore signals / totalConfidence signals ≥ 3/5 →
      (fuse_signals signals).action = "SELL" ∧
      (fuse_signals signals).confidence = sellScore signals / totalConfidence signals) ∧
    (¬ buyScore signals / totalConfidence signals ≥ 3/5 →
      ¬ sellScore signals / totalConfidence signals ≥ 3/5 →
      (fuse_signals signals).action = "HOLD" ∧
      (fuse_signals signals).confidence = 1/2) := by
  obtain ⟨s0, rest, rfl⟩ : ∃ a l, signals = a :: l := by
    cases signals with
    | nil => cases hne rfl
    | cons a l => exact ⟨a, l, rfl⟩
  have hshape := fuse_signals_cons s0 rest hpos.ne'
  refine ⟨fun h1 => ?_, fun h1 h2 => ?_, fun h1 h2 => ?_⟩
  · rw [hshape.1, hshape.2, fuseAction_buy h1]
    exact ⟨rfl, rfl⟩
  · rw [hshape.1, hshape.2, fuseAction_sell h1 h2]
    exact ⟨rfl, rfl⟩
  · rw [hshape.1, hshape.2, fuseAction_hold h1 h2]
    exact ⟨rfl, rfl⟩

/-- Concrete input for instantiating the C1 theorem: BUY weight 7 of
total 10, so `buy_ratio = 0.7 ≥ 0.6`. -/
def fuseWitnessSignals : List TradeSignal :=
  [⟨"A", "BUY", 7, 108, 94, 0, "", ""⟩,
   ⟨"A", "SELL", 3, 92, 106, 0, "", ""⟩]

/-- Instantiation of `fuse_signals_decision` at `fuseWitnessSignals`:
the hypotheses hold there and the fused signal is BUY. -/
theorem fuse_signals_decision_witness :
    fuseWitnessSignals ≠ [] ∧ 0 < totalConfidence fuseWitnessSignals ∧
    (fuse_signals fuseWitnessSignals).action = "BUY" := by
  refine ⟨by simp [fuseWitnessSignals],
    by norm_num [fuseWitnessSignals, totalConfidence], ?_⟩
  exact ((fuse_signals_decision fuseWitnessSignals
    (by simp [fuseWitnessSignals])
    (by norm_num [fuseWitnessSignals, totalConfidence])).1
    (by simp [fuseWitnessSignals, buyScore, totalConfidence]; norm_num)).1

/-! ## Risk engine (risk_engine_backup.py) -/

/-- Result dict of one risk check, with fields passed and message. -/
structure RiskCheck where
  passed : Bool
  message : String
  deriving Repr, DecidableEq

/-- The `RiskAssessment` dataclass (risk_engine_backup.py lines 7-15).
`suggested_adjustments` is omitted (never populated by the engine). -/
structure RiskAssessment where
  is_approved : Bool
  risk_level : String      -- LOW, MEDIUM, HIGH
  rejection_reason : String := ""
  max_position_size : ℚ := 0
  confidence_score : ℚ := 0
  deriving Repr, DecidableEq

/-- Count of checks whose passed flag is false (line 58). -/
def failedCount (checks : List RiskCheck) : ℕ :=
  (checks.filter (fun c => !c.passed)).length

/-- Embeds `risk_score = (count of failed checks) / len(checks)` (line 58). -/
def riskScore (checks : List RiskCheck) : ℚ :=
  (failedCount checks : ℚ) / (checks.length : ℚ)

/-- Embeds `AIRiskEngine.calculate_max_position` (risk_engine_backup.py lines
186-196).  `portfolio_value` comes from `PositionTracker.get_portfolio_value`
(500000 in the stub) and `ratio` from the max_position_ratio risk parameter
(default 0.1); both are passed in here so the statement covers any
configuration. -/
def calculate_max_position (signal : TradeSignal)
    (portfolio_value ratio current_price : ℚ) : ℚ :=
  let max_single_position := portfolio_value * ratio
  if 0 < current_price then
    min signal.quantity (max_single_position / current_price)
  else signal.quantity

/-- Embeds `AIRiskEngine.validate_trade_signal` (risk_engine_backup.py lines
45-84), parametrised by the list of the six check results computed at
lines 48-55: reject with HIGH when `risk_score ≥ 0.5`, otherwise approve
with LOW/MEDIUM by the 0.2 cut and the resized position. -/
def validate_trade_signal (checks : List RiskCheck) (signal : TradeSignal)
    (portfolio_value ratio current_price : ℚ) : RiskAssessment :=
  if riskScore checks ≥ 1/2 then
    { is_approved := false, risk_level := "HIGH",
      rejection_reason := "risk too high, checks failed",
      confidence_score := 1 - riskScore checks }
  else
    { is_approved := true,
      risk_level := if riskScore checks < 1/5 then "LOW" else "MEDIUM",
      max_position_size := calculate_max_position signal portfolio_value ratio current_price,
      confidence_score := 1 - riskScore checks }

/-- Shape of the assessment on the rejection branch (`risk_score ≥ 0.5`). -/
theorem validate_reject (checks : List RiskCheck) (signal : TradeSignal)
    (pv ratio price : ℚ) (hge : riskScore checks ≥ 1/2) :
    validate_trade_signal checks signal pv ratio price =
      { is_approved := false, risk_level := "HIGH",
        rejection_reason := "risk too high, checks failed",
        confidence_score := 1 - riskScore checks } := by
  rw [validate_trade_signal, if_pos hge]

/-- Shape of the assessment on the approval branch (`risk_score < 0.5`). -/
theorem validate_approve (checks : List RiskCheck) (signal : TradeSignal)
    (pv ratio price : ℚ) (hlt : ¬ riskScore checks ≥ 1/2) :
    validate_trade_signal checks signal pv ratio price =
      { is_approved := true,
        risk_level := if riskScore checks < 1/5 then "LOW" else "MEDIUM",
        max_position_size := calculate_max_position signal pv ratio price,
        confidence_score := 1 - riskScore checks } := by
  rw [validate_trade_signal, if_neg hlt]

/-- C2 — With the six check results in hand, the gate rejects with
risk level HIGH exactly when 3 or more checks failed
(`risk_score = failed/6 ≥ 0.5`); otherwise it approves with LOW when
`risk_score < 0.2` and MEDIUM otherwise, and in every case
`confidence_score = 1 - risk_score`. -/
theorem validate_trade_signal_gate (checks : List RiskCheck)
    (signal : TradeSignal) (pv ratio price : ℚ) (h6 : checks.length = 6) :
    (3 ≤ failedCount checks →
      (validate_trade_signal checks signal pv ratio price).is_approved = false ∧
      (validate_trade_signal checks signal pv ratio price).risk_level = "HIGH") ∧
    (failedCount checks < 3 →
      (validate_trade_signal checks signal pv ratio price).is_approved = true ∧
      (validate_trade_signal checks signal pv ratio price).risk_level =
        (if ((failedCount checks : ℚ)) / 6 < 1/5 then "LOW" else "MEDIUM")) ∧
    (validate_trade_signal checks signal pv ratio price).confidence_score =
      1 - ((failedCount checks : ℚ)) / 6 := by
  have hrs : riskScore checks = (failedCount checks : ℚ) / 6 := by
    rw [riskScore, h6]; norm_num
  have hiff : (riskScore checks ≥ 1/2) ↔ 3 ≤ failedCount checks := by
    rw [hrs, ge_iff_le, le_div_iff₀ (by norm_num : (0:ℚ) < 6)]
    constructor
    · intro h
      exact_mod_cast (by linarith : (3:ℚ) ≤ (failedCount checks : ℚ))
    · intro h
      have h3 : (3:ℚ) ≤ (failedCount checks : ℚ) := by exact_mod_cast h
      linarith
  by_cases hf : 3 ≤ failedCount checks
  · have hge : riskScore checks ≥ 1/2 := hiff.mpr hf
    rw [validate_reject checks signal pv ratio price hge, hrs]
    exact ⟨fun _ => ⟨rfl, rfl⟩, fun hlt => absurd hf (by omega), rfl⟩
  · have hge : ¬ riskScore checks ≥ 1/2 := fun h => hf (hiff.mp h)
    rw [validate_approve checks signal pv ratio price hge, hrs]
    exact ⟨fun h3 => absurd h3 hf, fun _ => ⟨rfl, rfl⟩, rfl⟩

/-- Six concrete check results, three of them failed. -/
def sixChecksThreeFailed : List RiskCheck :=
  [⟨true, "ok"⟩, ⟨true, "ok"⟩, ⟨true, "ok"⟩,
   ⟨false, "failed"⟩, ⟨false, "failed"⟩, ⟨false, "failed"⟩]

/-- Instantiation of `validate_trade_signal_gate`: with 3 of 6 checks
failed the assessment is rejected with risk level HIGH. -/
theorem validate_trade_signal_gate_witness :
    sixChecksThreeFailed.length = 6 ∧ 3 ≤ failedCount sixChecksThreeFailed ∧
    (validate_trade_signal sixChecksThreeFailed ⟨"A", "BUY", 1, 0, 0, 10, "", ""⟩
      500000 (1/10) 100).is_approved = false := by
  refine ⟨by decide, by decide, ?_⟩
  exact ((validate_trade_signal_gate sixChecksThreeFailed
    ⟨"A", "BUY", 1, 0, 0, 10, "", ""⟩ 500000 (1/10) 100 (by decide)).1
    (by decide)).1

/-- C9 — For a signal of nonnegative quantity, whenever the gate
approves, the `max_position_size` it returns never exceeds the requested
`signal.quantity`: `min(quantity, budget/price)` at positive price,
`quantity` itself otherwise. -/
theorem max_position_never_grows (checks : List RiskCheck)
    (signal : TradeSignal) (pv ratio price : ℚ)
    (hq : 0 ≤ signal.quantity)
    (happ : (validate_trade_signal checks signal pv ratio price).is_approved = true) :
    (validate_trade_signal checks signal pv ratio price).max_position_size ≤
      signal.quantity := by
  by_cases hge : riskScore checks ≥ 1/2
  · rw [validate_reject checks signal pv ratio price hge] at happ
    cases happ
  · rw [validate_approve checks signal pv ratio price hge]
    show calculate_max_position signal pv ratio price ≤ signal.quantity
    rw [calculate_max_position]
    by_cases hp : 0 < price
    · rw [if_pos hp]
      exact min_le_left _ _
    · rw [if_neg hp]

/-- Six concrete check results, all passed. -/
def sixChecksAllPassed : List RiskCheck :=
  [⟨true, "ok"⟩, ⟨true, "ok"⟩, ⟨true, "ok"⟩,
   ⟨true, "ok"⟩, ⟨true, "ok"⟩, ⟨true, "ok"⟩]

/-- Instantiation of `max_position_never_grows`: all checks pass, so the
trade is approved and the returned size stays at or below the requested
100 shares. -/
theorem max_position_never_grows_witness :
    0 ≤ (⟨"A", "BUY", 1, 0, 0, 100, "", ""⟩ : TradeSignal).quantity ∧
    (validate_trade_signal sixChecksAllPassed ⟨"A", "BUY", 1, 0, 0, 100, "", ""⟩
      500000 (1/10) 100).is_approved = true ∧
    (validate_trade_signal sixChecksAllPassed ⟨"A", "BUY", 1, 0, 0, 100, "", ""⟩
      500000 (1/10) 100).max_position_size ≤
      (⟨"A", "BUY", 1, 0, 0, 100, "", ""⟩ : TradeSignal).quantity := by
  have happ : (validate_trade_signal sixChecksAllPassed
      ⟨"A", "BUY", 1, 0, 0, 100, "", ""⟩ 500000 (1/10) 100).is_approved = true := by
    norm_num [validate_trade_signal, riskScore, failedCount, sixChecksAllPassed]
  refine ⟨by norm_num, happ, ?_⟩
  exact max_position_never_grows sixChecksAllPassed
    ⟨"A", "BUY", 1, 0, 0, 100, "", ""⟩ 500000 (1/10) 100 (by norm_num) happ

/-- Embeds `AIRiskEngine.check_liquidity` (risk_engine_backup.py lines 170-184):
the check fails only when `volume > 0` AND the order notional
`signal.quantity * current_price` exceeds `volume * 0.01`; in every
other case — including zero recent volume — it passes. -/
def check_liquidity (signal : TradeSignal) (volume current_price : ℚ) : RiskCheck :=
  if 0 < volume ∧ signal.quantity * current_price > volume * (1/100) then
    { passed := false, message := "insufficient liquidity" }
  else
    { passed := true, message := "liquidity sufficient" }

/-- C8 counterexample — With zero recent volume and a positive order
notional (quantity 1 at price 100) the claim demands `passed = False`,
but the guard `volume > 0` in the code short-circuits and the check passes. -/
theorem check_liquidity_zero_volume_counterexample :
    (check_liquidity ⟨"A", "BUY", 1, 0, 0, 1, "", ""⟩ 0 100).passed = true ∧
    (⟨"A", "BUY", 1, 0, 0, 1, "", ""⟩ : TradeSignal).quantity * 100 >
      (0 : ℚ) * (1/100) := by
  constructor
  · have h : ¬ ((0:ℚ) < 0 ∧
        (⟨"A", "BUY", 1, 0, 0, 1, "", ""⟩ : TradeSignal).quantity * 100 > (0:ℚ) * (1/100)) := by
      rintro ⟨h0, -⟩
      exact lt_irrefl 0 h0
    rw [check_liquidity, if_neg h]
  · norm_num

/-- C8 (amended) — The liquidity check fails exactly when the recent
volume is positive and the order notional `quantity × price` exceeds 1%
of it; with zero (or negative) volume it always passes. -/
theorem check_liquidity_fails_iff (signal : TradeSignal) (volume price : ℚ) :
    (check_liquidity signal volume price).passed = false ↔
      (0 < volume ∧ signal.quantity * price > volume * (1/100)) := by
  by_cases h : 0 < volume ∧ signal.quantity * price > volume * (1/100)
  · rw [check_liquidity, if_pos h]
    simpa using h
  · rw [check_liquidity, if_neg h]
    simpa using h

/-- Embeds `AIRiskEngine.check_volatility` (risk_engine_backup.py lines 151-168).
risk_engine_backup.py imports only pandas; the computation branch at line
158 evaluates `np.sqrt(252)` with `np` undefined, so every series longer
than 20 bars raises `NameError`, which the `except` at lines 167-168
converts into `passed=False` carrying the error text.  A series of at
most 20 bars (or a missing series) takes the "insufficient data" pass. -/
def check_volatility (price_data : Option (List ℚ)) : RiskCheck :=
  match price_data with
  | none => { passed := true, message := "insufficient volatility data, default pass" }
  | some closes =>
    if 20 < closes.length then
      { passed := false, message := "volatility check error: name np is not defined" }
    else
      { passed := true, message := "insufficient volatility data, default pass" }

/-- Daily returns: pct_change of the close column, leading NaN dropped. -/
def pctChange (closes : List ℚ) : List ℚ :=
  (closes.tail.zip closes).map (fun p => p.1 / p.2 - 1)

/-- Sample variance with the pandas default `ddof=1`; `0` for a list of
at most one element. -/
def sampleVariance (l : List ℚ) : ℚ :=
  if l.length ≤ 1 then 0
  else ((l.map (fun x => (x - l.sum / l.length)^2)).sum) / ((l.length : ℚ) - 1)

/-- Modelled from the spec: the intended volatility check of §4.4 item 5
(`daily_std × sqrt(252)` compared against 0.6), which the code cannot
reach because of the missing numpy import.  To stay in `ℚ` the comparison
is taken on squares: `std × sqrt 252 > 3/5  ↔  252 × variance > 9/25`
(both sides nonnegative).  Returns the `passed` flag: `true` below the
threshold or with fewer than 20 bars, `false` above it. -/
def check_volatility_spec (price_data : Option (List ℚ)) : Bool :=
  match price_data with
  | none => true
  | some closes =>
    if closes.length < 20 then true
    else if 252 * sampleVariance (pctChange closes) > 9/25 then false
    else true

/-- Twenty-one daily bars with the close constant at 100. -/
def flat21 : List ℚ :=
  [100, 100, 100, 100, 100, 100, 100, 100, 100, 100, 100,
   100, 100, 100, 100, 100, 100, 100, 100, 100, 100]

/-- C7 — On 21 constant-price bars the annualized volatility is 0,
so the spec-modelled check passes; the code instead returns
`passed = False`, because the volatility computation raises `NameError`
(`np` is never imported in risk_engine_backup.py) and the handler
converts the exception into a failure. -/
theorem check_volatility_name_error :
    (check_volatility (some flat21)).passed = false ∧
    check_volatility_spec (some flat21) = true ∧
    sampleVariance (pctChange flat21) = 0 := by
  refine ⟨?_, ?_, ?_⟩
  · rw [check_volatility]
    rw [if_pos (by simp [flat21])]
  · rw [check_volatility_spec]
    rw [if_neg (by simp [flat21])]
    rw [if_neg (by norm_num [flat21, pctChange, sampleVariance])]
  · norm_num [flat21, pctChange, sampleVariance]

/-! ## Technical analyzer (signal_generator_backup.py lines 100-167, 374-385) -/

/-- Indicator dict of `TechnicalAnalyzer.calculate_indicators`. -/
structure Indicators where
  sma_20 : ℚ
  sma_50 : ℚ
  rsi : ℚ
  macd : ℚ
  macd_signal : ℚ
  current_price : ℚ
  deriving Repr, DecidableEq

/-- Embeds `TechnicalAnalyzer.calculate_indicators` (lines 374-385): trailing
means of the close column (the caller guarantees at least 20 bars);
`rsi`, `macd` and `macd_signal` are the simplified constants 50, 0, 0. -/
def calculate_indicators (closes : List ℚ) : Indicators :=
  { sma_20 := (closes.drop (closes.length - 20)).sum / 20
    sma_50 := if 50 ≤ closes.length then (closes.drop (closes.length - 50)).sum / 50
      else closes.sum / closes.length
    rsi := 50
    macd := 0
    macd_signal := 0
    current_price := closes.getLast?.getD 0 }

/-- Embeds `SignalGenerator.technical_analysis` (lines 100-167), with the
technical analyzer weight of the configuration (default 0.25) passed
in.  Score starts at 0.5 and moves by the SMA-cross, RSI-threshold and
MACD-cross adjustments, all on strict comparisons; score ≥ 0.6 maps to
BUY, score ≤ 0.4 to SELL, otherwise HOLD;
`confidence = |score − 0.5| × 2 × weight`. -/
def technical_analysis (w_technical : ℚ) (symbol : String) (closes : List ℚ) : TradeSignal :=
  if closes.length < 20 then create_hold_signal symbol "insufficient technical data"
  else
    let ind := calculate_indicators closes
    let score1 : ℚ := if ind.sma_20 > ind.sma_50 then 1/2 + 1/10 else 1/2 - 1/10
    let score2 : ℚ := if ind.rsi < 30 then score1 + 3/20
      else if ind.rsi > 70 then score1 - 3/20 else score1
    let score : ℚ := if ind.macd > ind.macd_signal then score2 + 1/10 else score2 - 1/10
    let cp := ind.current_price
    let ats : String × ℚ × ℚ :=
      if score ≥ 3/5 then ("BUY", cp * (27/25), cp * (47/50))
      else if score ≤ 2/5 then ("SELL", cp * (23/25), cp * (53/50))
      else ("HOLD", cp, cp * (49/50))
    { symbol := symbol, action := ats.1,
      confidence := |score - 1/2| * 2 * w_technical,
      target_price := ats.2.1, stop_loss := ats.2.2,
      reasoning := "technical reasoning", source := "technical" }

/-- Twenty daily bars with the close constant at 100 (end-to-end scenario A). -/
def flat20 : List ℚ :=
  [100, 100, 100, 100, 100, 100, 100, 100, 100, 100,
   100, 100, 100, 100, 100, 100, 100, 100, 100, 100]

/-- C3 counterexample — On 20 identical bars at 100.0 the claim
expects HOLD with confidence ≈ 0, but equal SMAs fail the strict
`sma_20 > sma_50` test (−0.1) and equal MACD lines fail the strict
`macd > macd_signal` test (−0.1), so the score lands at 0.3 ≤ 0.4 and
the analyzer does not return HOLD. -/
theorem technical_analysis_flat_not_hold :
    (technical_analysis (1/4) "X" flat20).action ≠ "HOLD" := by
  norm_num [technical_analysis, calculate_indicators, flat20]
  decide

/-- C3 (amended) — On 20 identical bars at 100.0 the analyzer
returns SELL with confidence 0.1 (= |0.3 − 0.5| × 2 × 0.25), target
92 = 100 × 0.92 and stop-loss 106 = 100 × 1.06: both tie-comparisons
are strict, so the flat series scores 0.5 − 0.1 − 0.1 = 0.3 ≤ 0.4. -/
theorem technical_analysis_flat_sell :
    technical_analysis (1/4) "X" flat20 =
      { symbol := "X", action := "SELL", confidence := 1/10,
        target_price := 92, stop_loss := 106, quantity := 0,
        reasoning := "technical reasoning", source := "technical" } := by
  norm_num [technical_analysis, calculate_indicators, flat20]
  rw [abs_of_pos (by norm_num : (0:ℚ) < 1/5)]
  norm_num

/-! ## Weight configuration (signal_generator_backup.py lines 29-42) -/

/-- The analyzer weight dictionary of `SignalGenerator`. -/
structure AnalyzerWeights where
  technical : ℚ
  fundamental : ℚ
  sentiment : ℚ
  ai : ℚ
  deriving Repr, DecidableEq

/-- The default weights of `SignalGenerator.__init__` (lines 37-42). -/
def defaultWeights : AnalyzerWeights :=
  { technical := 1/4, fundamental := 3/10, sentiment := 3/20, ai := 3/10 }

/-- The weights stored by `SignalGenerator.__init__` (lines 29-42):
the configured weights with the defaults as fallback.  The constructor performs no
validation of any kind — it cannot fail, and it stores whatever the
configuration supplies. -/
def signalGeneratorWeights (configWeights : Option AnalyzerWeights) : AnalyzerWeights :=
  configWeights.getD defaultWeights

/-- Sum of the four analyzer weights. -/
def weightsSum (w : AnalyzerWeights) : ℚ :=
  w.technical + w.fundamental + w.sentiment + w.ai

/-- C6 counterexample — A configuration with weights summing to 4
(≠ 1.0) is accepted at construction: the constructor total-function
returns normally and stores the weights unchanged, instead of raising
the configuration error the claim requires. -/
theorem weights_not_validated :
    weightsSum ⟨1, 1, 1, 1⟩ ≠ 1 ∧
    signalGeneratorWeights (some ⟨1, 1, 1, 1⟩) = ⟨1, 1, 1, 1⟩ := by
  exact ⟨by norm_num [weightsSum], rfl⟩

/-- C6 (amended) — the constructor of `SignalGenerator` performs no validation
of the analyzer weights: for every configured weight dictionary,
whatever its sum, construction succeeds and stores it verbatim
(defaults are used only when the key is absent), silently absorbing
non-1.0 sums. -/
theorem weights_absorbed_silently (w : AnalyzerWeights) :
    signalGeneratorWeights (some w) = w ∧
    signalGeneratorWeights none = defaultWeights := ⟨rfl, rfl⟩

/-! ## RSI (ai_strategies_backup.py lines 39-73; coredata_engine.py lines 269-299) -/

/-- Embeds `closes.diff()` without its leading NaN: successive close-to-close
deltas. -/
def deltas (closes : List ℚ) : List ℚ :=
  (closes.tail.zip closes).map (fun p => p.1 - p.2)

/-- The trailing `k`-element window of a list (the last value of a
`rolling(k)` aggregate). -/
def lastWindow (k : ℕ) (l : List ℚ) : List ℚ :=
  l.drop (l.length - k)

/-- Last value of `(delta.where(delta > 0, 0)).rolling(14).mean()`. -/
def avgGain (closes : List ℚ) : ℚ :=
  ((lastWindow 14 (deltas closes)).map (fun d => if 0 < d then d else 0)).sum / 14

/-- Last value of `(-delta.where(delta < 0, 0)).rolling(14).mean()`. -/
def avgLoss (closes : List ℚ) : ℚ :=
  ((lastWindow 14 (deltas closes)).map (fun d => if d < 0 then -d else 0)).sum / 14

/-- IEEE-754 value of the float quotient `avg_gain / avg_loss`: `0/0`
is NaN, `positive/0` is +∞, otherwise an exact rational. -/
inductive RSQuot where
  | nan : RSQuot
  | inf : RSQuot
  | val (q : ℚ) : RSQuot
  deriving Repr, DecidableEq

/-- Embeds `rs = gain / loss` at the last index (ai_strategies_backup.py line
57), with float division semantics: the average gain is nonnegative, so
a zero average loss yields NaN (when the gain is zero too) or +∞. -/
def rsLast (closes : List ℚ) : RSQuot :=
  if avgLoss closes = 0 then
    (if avgGain closes = 0 then RSQuot.nan else RSQuot.inf)
  else RSQuot.val (avgGain closes / avgLoss closes)

/-- Embeds `rsi = 100 - (100 / (1 + rs)) if not pd.isna(rs.iloc[-1]) else 50`
(ai_strategies_backup.py line 58; coredata_engine.py line 284 computes
the same formula without the NaN fallback).  In float arithmetic
`100/(1+∞) = 0`, so an infinite `rs` yields exactly 100. -/
def rsiOfQuot : RSQuot → ℚ
  | RSQuot.nan => 50
  | RSQuot.inf => 100
  | RSQuot.val q => 100 - 100 / (1 + q)

def rsi14 (closes : List ℚ) : ℚ := rsiOfQuot (rsLast closes)

/-- Twenty strictly increasing daily closes 1, 2, …, 20. -/
def rising20 : List ℚ :=
  [1, 2, 3, 4, 5, 6, 7, 8, 9, 10, 11, 12, 13, 14, 15, 16, 17, 18, 19, 20]

/-- Every entry of the gain window is nonnegative. -/
theorem avgGain_nonneg (closes : List ℚ) : 0 ≤ avgGain closes := by
  apply div_nonneg _ (by norm_num)
  apply List.sum_nonneg
  intro x hx
  obtain ⟨d, -, rfl⟩ := List.mem_map.mp hx
  by_cases hd : 0 < d
  · rw [if_pos hd]; exact hd.le
  · rw [if_neg hd]

/-- Every entry of the loss window is nonnegative. -/
theorem avgLoss_nonneg (closes : List ℚ) : 0 ≤ avgLoss closes := by
  apply div_nonneg _ (by norm_num)
  apply List.sum_nonneg
  intro x hx
  obtain ⟨d, -, rfl⟩ := List.mem_map.mp hx
  by_cases hd : d < 0
  · rw [if_pos hd]; linarith
  · rw [if_neg hd]

/-- C4 counterexample — On 20 strictly rising closes the 14-period
average loss is zero but the computed RSI is 100, not 50: `rs` is the
float +∞ (positive gain divided by zero loss), not the NaN that the
fallback catches. -/
theorem rsi_zero_loss_not_fifty :
    avgLoss rising20 = 0 ∧ rsi14 rising20 ≠ 50 := by
  have hl : avgLoss rising20 = 0 := by
    norm_num [avgLoss, lastWindow, deltas, rising20]
  have hg : avgGain rising20 = 1 := by
    norm_num [avgGain, lastWindow, deltas, rising20]
  have hrs : rsLast rising20 = RSQuot.inf := by
    rw [rsLast, if_pos hl, if_neg (by rw [hg]; norm_num)]
  refine ⟨hl, ?_⟩
  rw [rsi14, hrs, rsiOfQuot]
  norm_num

/-- C4 (amended) — For every series of at least 20 bars the computed
RSI lies within [0, 100]; when the 14-period rolling average loss is
zero, the RSI is 50 only in the all-flat case (average gain also zero,
the NaN fallback) and is exactly 100 whenever the average gain is
positive (`rs = +∞`). -/
theorem rsi_bounds (closes : List ℚ) (h20 : 20 ≤ closes.length) :
    (0 ≤ rsi14 closes ∧ rsi14 closes ≤ 100) ∧
    (avgLoss closes = 0 →
      rsi14 closes = if avgGain closes = 0 then 50 else 100) := by
  constructor
  · by_cases hl : avgLoss closes = 0
    · by_cases hg : avgGain closes = 0
      · have hrs : rsLast closes = RSQuot.nan := by
          rw [rsLast, if_pos hl, if_pos hg]
        rw [rsi14, hrs, rsiOfQuot]
        norm_num
      · have hrs : rsLast closes = RSQuot.inf := by
          rw [rsLast, if_pos hl, if_neg hg]
        rw [rsi14, hrs, rsiOfQuot]
        norm_num
    · have hrs : rsLast closes = RSQuot.val (avgGain closes / avgLoss closes) := by
        rw [rsLast, if_neg hl]
      have hlpos : 0 < avgLoss closes := lt_of_le_of_ne (avgLoss_nonneg closes) (Ne.symm hl)
      have hq : 0 ≤ avgGain closes / avgLoss closes :=
        div_nonneg (avgGain_nonneg closes) hlpos.le
      have h1q : (0:ℚ) < 1 + avgGain closes / avgLoss closes := by linarith
      have hdivpos : 0 < 100 / (1 + avgGain closes / avgLoss closes) := by positivity
      have hdivle : 100 / (1 + avgGain closes / avgLoss closes) ≤ 100 := by
        apply div_le_self (by norm_num)
        linarith
      rw [rsi14, hrs, rsiOfQuot]
      constructor <;> linarith
  · intro hl
    by_cases hg : avgGain closes = 0
    · have hrs : rsLast closes = RSQuot.nan := by
        rw [rsLast, if_pos hl, if_pos hg]
      rw [rsi14, hrs, rsiOfQuot, if_pos hg]
    · have hrs : rsLast closes = RSQuot.inf := by
        rw [rsLast, if_pos hl, if_neg hg]
      rw [rsi14, hrs, rsiOfQuot, if_neg hg]

/-- Instantiation of `rsi_bounds` at the concrete 20-bar rising series:
the length hypothesis holds and the RSI bound follows. -/
theorem rsi_bounds_witness :
    20 ≤ rising20.length ∧ 0 ≤ rsi14 rising20 ∧ rsi14 rising20 ≤ 100 := by
  refine ⟨by decide, ?_, ?_⟩
  · exact ((rsi_bounds rising20 (by decide)).1).1
  · exact ((rsi_bounds rising20 (by decide)).1).2

/-! ## Multi-AI consensus (ai_strategies_backup.py lines 241-336) -/

/-- The `StrategyResult` dataclass (ai_strategies_backup.py lines 16-25). -/
structure StrategyResult where
  symbol : String
  action : String
  confidence : ℚ
  target_price : ℚ
  stop_loss : ℚ
  reasoning : String
  strategy_name : String
  deriving Repr, DecidableEq

/-- Embeds `buy_count` of `MultiAIConsensusStrategy.analyze` (lines 283-284):
members voting BUY, counted one each regardless of confidence. -/
def buyCount (results : List StrategyResult) : ℕ :=
  (results.filter (fun r => r.action == "BUY")).length

/-- Embeds `sell_count` (lines 285-286). -/
def sellCount (results : List StrategyResult) : ℕ :=
  (results.filter (fun r => r.action == "SELL")).length

/-- The consensus decision of lines 308-319: 60% member thresholds
tested independently, BUY first, confidence scaled from the average. -/
def consensusDecision (buy_ratio sell_ratio avg_confidence : ℚ) : String × ℚ :=
  if buy_ratio ≥ 3/5 then ("BUY", avg_confidence * buy_ratio)
  else if sell_ratio ≥ 3/5 then ("SELL", avg_confidence * sell_ratio)
  else ("HOLD", 1/2)

/-- Embeds `MultiAIConsensusStrategy.analyze` (lines 252-336), parametrised by
the list `valid_results` of sub-strategy results that survived the
exception filter at lines 276-288.  Member counting, the 60% thresholds
and the averaged targets follow the source; the no-valid-results
fallback of lines 290-299 is the empty-list branch. -/
def consensus_analyze (name symbol : String) (results : List StrategyResult) : StrategyResult :=
  match results with
  | [] =>
    { symbol := symbol, action := "HOLD", confidence := 0, target_price := 0,
      stop_loss := 0, reasoning := "all sub-strategies failed", strategy_name := name }
  | _ :: _ =>
    let avg_confidence := (results.map (·.confidence)).sum / (results.length : ℚ)
    let ac := consensusDecision ((buyCount results : ℚ) / (results.length : ℚ))
      ((sellCount results : ℚ) / (results.length : ℚ)) avg_confidence
    let target_prices := (results.filter (fun r => 0 < r.target_price)).map (·.target_price)
    let stop_losses := (results.filter (fun r => 0 < r.stop_loss)).map (·.stop_loss)
    { symbol := symbol, action := ac.1, confidence := ac.2,
      target_price := listMean target_prices, stop_loss := listMean stop_losses,
      reasoning := "consensus decision", strategy_name := name }

theorem consensusDecision_buy {br sr ac : ℚ} (h : br ≥ 3/5) :
    consensusDecision br sr ac = ("BUY", ac * br) := by
  simp [consensusDecision, h]

theorem consensusDecision_sell {br sr ac : ℚ} (h1 : ¬ br ≥ 3/5) (h2 : sr ≥ 3/5) :
    consensusDecision br sr ac = ("SELL", ac * sr) := by
  simp [consensusDecision, h1, h2]

theorem consensusDecision_hold {br sr ac : ℚ} (h1 : ¬ br ≥ 3/5) (h2 : ¬ sr ≥ 3/5) :
    consensusDecision br sr ac = ("HOLD", 1/2) := by
  simp [consensusDecision, h1, h2]

/-- C5 — For every non-empty list of valid strategy results, the
consensus action is BUY exactly when `buy_count/total ≥ 0.6`, SELL
exactly when `buy_count/total < 0.6` and `sell_count/total ≥ 0.6`, and
HOLD otherwise — counting members, not confidence-weighted mass. -/
theorem consensus_sixty_percent (name symbol : String)
    (results : List StrategyResult) (hne : results ≠ []) :
    ((consensus_analyze name symbol results).action = "BUY" ↔
      (buyCount results : ℚ) / (results.length : ℚ) ≥ 3/5) ∧
    ((consensus_analyze name symbol results).action = "SELL" ↔
      (¬ (buyCount results : ℚ) / (results.length : ℚ) ≥ 3/5 ∧
        (sellCount results : ℚ) / (results.length : ℚ) ≥ 3/5)) ∧
    ((consensus_analyze name symbol results).action = "HOLD" ↔
      (¬ (buyCount results : ℚ) / (results.length : ℚ) ≥ 3/5 ∧
        ¬ (sellCount results : ℚ) / (results.length : ℚ) ≥ 3/5)) := by
  obtain ⟨r0, rest, rfl⟩ : ∃ a l, results = a :: l := by
    cases results with
    | nil => cases hne rfl
    | cons a l => exact ⟨a, l, rfl⟩
  have haction : (consensus_analyze name symbol (r0 :: rest)).action =
      (consensusDecision ((buyCount (r0 :: rest) : ℚ) / ((r0 :: rest).length : ℚ))
        ((sellCount (r0 :: rest) : ℚ) / ((r0 :: rest).length : ℚ))
        (((r0 :: rest).map (·.confidence)).sum / ((r0 :: rest).length : ℚ))).1 := rfl
  rw [haction]
  by_cases h1 : (buyCount (r0 :: rest) : ℚ) / ((r0 :: rest).length : ℚ) ≥ 3/5
  · rw [consensusDecision_buy h1]
    exact ⟨⟨fun _ => h1, fun _ => rfl⟩,
      ⟨fun h => by simp at h, fun h => absurd h1 h.1⟩,
      ⟨fun h => by simp at h, fun h => absurd h1 h.1⟩⟩
  · by_cases h2 : (sellCount (r0 :: rest) : ℚ) / ((r0 :: rest).length : ℚ) ≥ 3/5
    · rw [consensusDecision_sell h1 h2]
      exact ⟨⟨fun h => by simp at h, fun hb => absurd hb h1⟩,
        ⟨fun _ => ⟨h1, h2⟩, fun _ => rfl⟩,
        ⟨fun h => by simp at h, fun h => absurd h2 h.2⟩⟩
    · rw [consensusDecision_hold h1 h2]
      exact ⟨⟨fun h => by simp at h, fun hb => absurd hb h1⟩,
        ⟨fun h => by simp at h, fun h => absurd h.2 h2⟩,
        ⟨fun _ => ⟨h1, h2⟩, fun _ => rfl⟩⟩

/-- Three concrete strategy results, two of them BUY. -/
def consensusWitnessResults : List StrategyResult :=
  [⟨"A", "BUY", 1, 110, 95, "up", "s1"⟩,
   ⟨"A", "BUY", 1, 112, 96, "up", "s2"⟩,
   ⟨"A", "SELL", 1, 90, 105, "down", "s3"⟩]

/-- Instantiation of `consensus_sixty_percent`: 2 of 3 members vote BUY,
`2/3 ≥ 0.6`, so the consensus action is BUY. -/
theorem consensus_sixty_percent_witness :
    consensusWitnessResults ≠ [] ∧
    (consensus_analyze "multi" "A" consensusWitnessResults).action = "BUY" := by
  refine ⟨by simp [consensusWitnessResults], ?_⟩
  exact ((consensus_sixty_percent "multi" "A" consensusWitnessResults
    (by simp [consensusWitnessResults])).1).mpr
    (by simp [consensusWitnessResults, buyCount]; norm_num)

/-! ## Multi-symbol entry point (signal_generator_backup.py lines 44-55) -/

/-- Confidence-descending order on trade signals: `a` precedes `b` when
the confidence of `b` is at most that of `a`. -/
abbrev confGe (a b : TradeSignal) : Prop := b.confidence ≤ a.confidence

instance : DecidableRel confGe :=
  fun a b => inferInstanceAs (Decidable (b.confidence ≤ a.confidence))

instance : IsTotal TradeSignal confGe :=
  ⟨fun a b => le_total b.confidence a.confidence⟩

instance : IsTrans TradeSignal confGe :=
  ⟨fun _ _ _ hab hbc => le_trans hbc hab⟩

/-- Embeds `SignalGenerator.generate_trade_signals` (lines 44-55), parametrised
by the per-symbol signals returned by `generate_single_signal` (which
always returns a `TradeSignal`, so the truthiness guard reduces to the
HOLD test): keep the non-HOLD signals and sort by confidence in
descending order (`signals.sort(key=..., reverse=True)`; the stable sort
is modelled by insertion sort, equal elements keeping their order). -/
def generate_trade_signals (generated : List TradeSignal) : List TradeSignal :=
  List.insertionSort confGe (generated.filter (fun s => s.action ≠ "HOLD"))

/-- C10 — The multi-symbol entry point returns exactly the non-HOLD
signals of its per-symbol runs (every HOLD result is dropped, nothing
else is): the output is a permutation of that filtered list, contains no
HOLD signal, and is sorted in non-increasing order of confidence. -/
theorem generate_trade_signals_spec (generated : List TradeSignal) :
    (∀ s ∈ generate_trade_signals generated, s.action ≠ "HOLD") ∧
    List.Sorted (fun a b => b.confidence ≤ a.confidence) (generate_trade_signals generated) ∧
    (generate_trade_signals generated).Perm
      (generated.filter (fun s => s.action ≠ "HOLD")) := by
  refine ⟨?_, ?_, ?_⟩
  · intro s hs
    have hmem : s ∈ generated.filter (fun s => s.action ≠ "HOLD") := by
      simpa [generate_trade_signals] using hs
    have := (List.mem_filter.mp hmem).2
    simpa using this
  · exact List.sorted_insertionSort confGe _
  · exact List.perm_insertionSort confGe _
